import Mathlib

/-
Verification of the jerkins_ai Home Assistant integration
(custom_components/jerkins_ai/__init__.py and const.py).

The development shallowly embeds the decision loop of the integration:
sensor collection (`_collect_sensor_data`), zone entity discovery
(`_get_entities_for_zone`), action validation (`_validate_zone_actions`),
the reasoning-endpoint client (`_communicate_with_llm`), decision
processing (`_process_llm_response`), action execution (`_execute_action`),
the two runtime mutation operations (`async_update_zone_mapping`,
`async_update_action_mapping`) and the update cycle (`async_update`).

String operations are implemented by structural recursion on character
lists so that every definition evaluates on concrete inputs inside the
kernel.
-/

/-- Boolean test that `pat` occurs as a contiguous sublist of `s`; this is
the semantics of the Python substring test `pat in s` (the empty pattern
occurs in every string). -/
def hasSubList (pat s : List Char) : Bool :=
  match s with
  | [] => pat.isEmpty
  | _ :: t => pat.isPrefixOf s || hasSubList pat t

/-- Split a character list at the first occurrence of `c`: the first
component is everything before it and the second is `some` of everything
after it (or `none` when `c` does not occur).  This models Python's
`s.split(sep, 1)`. -/
def breakAtFirst (c : Char) : List Char → List Char × Option (List Char)
  | [] => ([], none)
  | x :: xs =>
    if x = c then ([], some xs)
    else
      let r := breakAtFirst c xs
      (x :: r.1, r.2)

/-- Lower-case a string character by character, as Python `str.lower` does
for the ASCII identifiers and names this integration handles. -/
def strLower (s : String) : String := ⟨s.data.map Char.toLower⟩

/-- Python substring test `pat in s` on strings. -/
def strContains (s pat : String) : Bool := hasSubList pat.data s.data

/-- Python `s.startswith(p)`. -/
def strStartsWith (s p : String) : Bool := p.data.isPrefixOf s.data

/-- Python single-character membership test `c in s`. -/
def strHasChar (s : String) (c : Char) : Bool := s.data.contains c

/-- Python `s.replace("_", "")`. -/
def underscoreToEmpty (s : String) : String := ⟨s.data.filter (fun c => c != '_')⟩

/-- Python `s.replace("_", " ")`. -/
def underscoreToSpace (s : String) : String :=
  ⟨s.data.map (fun c => if c = '_' then ' ' else c)⟩

/-- Text before the first dot: Python `s.split(".", 1)[0]`, also the
Home Assistant `State.domain` of an entity id. -/
def domainOf (s : String) : String := ⟨(breakAtFirst '.' s.data).1⟩

/-- Text after the first dot: Python `s.split(".", 1)[1]` (empty when
there is no dot; the sources only use it under a dot-membership guard). -/
def afterFirstDot (s : String) : String := ⟨((breakAtFirst '.' s.data).2).getD []⟩

/-- JSON values, the payloads exchanged with the reasoning endpoint. -/
inductive JVal where
  | jnull : JVal
  | jbool : Bool → JVal
  | jnum : Int → JVal
  | jstr : String → JVal
  | jarr : List JVal → JVal
  | jobj : List (String × JVal) → JVal
deriving Repr

/-- Python truthiness of a JSON value (`if not x` tests in the sources):
`None`, `False`, `0`, the empty string and empty containers are falsy. -/
def pyTruthy : JVal → Bool
  | JVal.jnull => false
  | JVal.jbool b => b
  | JVal.jnum n => n != 0
  | JVal.jstr s => s != ""
  | JVal.jarr xs => !xs.isEmpty
  | JVal.jobj kvs => !kvs.isEmpty

/-- Truthiness of `dict.get`'s result: a missing key (`None`) is falsy. -/
def optTruthy : Option JVal → Bool
  | none => false
  | some v => pyTruthy v

/-- Whether the value is a JSON object (Python `isinstance(x, dict)`). -/
def JVal.isObj : JVal → Bool
  | JVal.jobj _ => true
  | _ => false

/-- Association-list lookup with string keys, modelling `dict.get` on a
parsed JSON object or on a configuration mapping (keys are unique). -/
def lookupKV {α : Type} (m : List (String × α)) (k : String) : Option α :=
  (m.find? (fun p => p.1 == k)).map (fun p => p.2)

/-- Field access `obj.get(k)` on a JSON value; `None` on non-objects. -/
def getField (r : JVal) (k : String) : Option JVal :=
  match r with
  | JVal.jobj kvs => lookupKV kvs k
  | _ => none

/-- Python dict assignment `m[k] = v` on the association-list model:
replace the binding of `k` when present, otherwise append it. -/
def setKV {α : Type} : List (String × α) → String → α → List (String × α)
  | [], k, v => [(k, v)]
  | p :: ps, k, v => if p.1 == k then (k, v) :: ps else p :: setKV ps k v

/-- One entry of the Home Assistant state machine (`hass.states`): an
entity id, a friendly name, a raw state string and an attribute bag. -/
structure EntityState where
  entity_id : String
  name : String
  state : String
  attributes : List (String × JVal)
deriving Repr

/-- The persisted per-instance configuration (the config entry's data):
endpoint URL, configured sensors, the sensor-to-zone mapping, the
zone-to-actions mapping and the polling interval. -/
structure JerkinsConfig where
  llm_url : Option String
  sensors : List String
  zone_mappings : List (String × String)
  action_mappings : List (String × List String)
  polling_interval : Nat
deriving Repr

/-- SUPPORTED_DOMAINS from const.py. -/
def SUPPORTED_DOMAINS : List String :=
  ["light", "switch", "climate", "cover", "media_player", "fan",
   "automation", "script", "binary_sensor"]

/-- DEFAULT_POLLING_INTERVAL from const.py. -/
def DEFAULT_POLLING_INTERVAL : Nat := 60

/-- The state value of an emitted sensor observation: either a raw state
string or a boolean (the type the specification assigns to normalized
binary-class readings). -/
inductive SVal where
  | str : String → SVal
  | bool : Bool → SVal
deriving Repr, DecidableEq

/-- One element of the per-cycle snapshot, the `sensor_info` dict built by
`_collect_sensor_data`. -/
structure SensorInfo where
  entity_id : String
  name : String
  state : SVal
  attributes : List (String × JVal)
  zone : String
  available_actions : List String
deriving Repr

/-- JerkinsAI._get_entities_for_zone: derive the zone's member entities by
name matching.  For `zone.x` ids the part after the dot is the zone name,
otherwise the id itself is.  An entity belongs to the zone when its domain
is supported and either the zone name (lower-cased, underscores removed)
occurs in the lower-cased entity id, or the zone name (lower-cased,
underscores replaced by spaces) occurs in the lower-cased friendly name. -/
def getEntitiesForZone (states : List EntityState) (zone_id : String) : List String :=
  (states.filter (fun st =>
      decide (domainOf st.entity_id ∈ SUPPORTED_DOMAINS) &&
      (strContains (strLower st.entity_id)
          (underscoreToEmpty (strLower (if strStartsWith zone_id ("zone.")
            then afterFirstDot zone_id else zone_id))) ||
        strContains (strLower st.name)
          (underscoreToSpace (strLower (if strStartsWith zone_id ("zone.")
            then afterFirstDot zone_id else zone_id)))))).map
    (fun st => st.entity_id)

/-- JerkinsAI._validate_zone_actions: keep a configured action when it
either has no dot (custom action) or has a supported domain backed by a
zone entity of that domain or a domain in ["script", "automation"]. -/
def validateZoneActions (states : List EntityState) (zone_id : String)
    (configured : List String) : List String :=
  configured.filter (fun action =>
    if strHasChar action '.' then
      decide (domainOf action ∈ SUPPORTED_DOMAINS) &&
        ((getEntitiesForZone states zone_id).any
            (fun e => strStartsWith e (domainOf action ++ ".")) ||
          decide (domainOf action ∈ ["script", "automation"]))
    else true)

/-- Lookup of `hass.states.get`. -/
def findState (states : List EntityState) (eid : String) : Option EntityState :=
  states.find? (fun st => st.entity_id == eid)

/-- JerkinsAI._collect_sensor_data: for each configured sensor in order,
skip it when its state is missing or its zone mapping is missing or empty
(Python falsiness), otherwise emit a `sensor_info` record whose state is
the raw state value passed through unchanged and whose available actions
are the freshly validated ones. -/
def collectSensorData (cfg : JerkinsConfig) (states : List EntityState) : List SensorInfo :=
  cfg.sensors.filterMap (fun sid =>
    match findState states sid with
    | none => none
    | some st =>
      match lookupKV cfg.zone_mappings sid with
      | none => none
      | some zid =>
        if zid == "" then none
        else
          some { entity_id := sid
                 name := st.name
                 state := SVal.str st.state
                 attributes := st.attributes
                 zone := zid
                 available_actions :=
                   validateZoneActions states zid
                     ((lookupKV cfg.action_mappings zid).getD []) })

/-- Modelled from the spec: the boolean normalization of §4.2 ("map a
fixed vocabulary of truthy tokens ... to boolean true, everything else to
false; for all other sensors, pass the raw value through unchanged").  No
such normalization exists anywhere in the sources; this definition follows
the spec's words so the claimed behaviour can be compared with
`collectSensorData`.  The truthy vocabulary is the spec's. -/
def TRUTHY_TOKENS : List String := ["on", "true", "yes", "open", "detected", "home"]

/-- Modelled from the spec: normalization of one raw state value as §4.2
describes it, with "identifier signals a boolean-class sensor" read as the
`binary_sensor.` id prefix. -/
def specNormalizeState (entity_id raw : String) : SVal :=
  if strStartsWith entity_id ("binary_sensor.") then
    SVal.bool (decide (strLower raw ∈ TRUTHY_TOKENS))
  else SVal.str raw

/-- Observable outcome of the single HTTP POST issued by
`_communicate_with_llm`: either a response after `elapsed` time units with
a status code and a parsed JSON body (`none` when the body is not valid
JSON, which makes `response.json()` raise), or a transport error
(`aiohttp.ClientError`), or any other exception. -/
inductive LlmOutcome where
  | response : Nat → Nat → Option JVal → LlmOutcome
  | clientError : String → LlmOutcome
  | otherError : String → LlmOutcome
deriving Repr

/-- The `async_timeout.timeout(30)` bound around the request. -/
def LLM_TIMEOUT : Nat := 30

/-- JerkinsAI._communicate_with_llm: with no configured URL the call logs
and returns None without sending anything; otherwise the one request's
outcome is folded to None on timeout expiry, transport error, other
exception, non-200 status or body-parse failure, and to the parsed body on
a 200 response.  Every branch returns; nothing is raised to the caller. -/
def communicateWithLlm (cfg : JerkinsConfig) (outcome : LlmOutcome) : Option JVal :=
  match cfg.llm_url with
  | none => none
  | some _ =>
    match outcome with
    | LlmOutcome.clientError _ => none
    | LlmOutcome.otherError _ => none
    | LlmOutcome.response elapsed status body =>
      if LLM_TIMEOUT < elapsed then none
      else if status != 200 then none
      else body

/-- Number of HTTP requests `_communicate_with_llm` sends in one call: one
`session.post` when a URL is configured, none otherwise.  The body has no
loop, so there is no retry. -/
def llmRequestsSent (cfg : JerkinsConfig) : Nat :=
  match cfg.llm_url with
  | none => 0
  | some _ => 1

/-- Whether an outcome is one of the failure modes of the request. -/
def llmFailure : LlmOutcome → Bool
  | LlmOutcome.clientError _ => true
  | LlmOutcome.otherError _ => true
  | LlmOutcome.response elapsed status body =>
    decide (LLM_TIMEOUT < elapsed) || status != 200 || body.isNone

/-- JerkinsAI._process_llm_response: returns `some (zone, action, params)`
exactly when `_execute_action` is invoked with those arguments.  The
response must be a truthy dict, its `zone` and `action` fields truthy, and
the action a member of the validated action list recomputed here from the
current action mapping and current platform state.  The two collapsed
fall-through branches are faithful to the source: a truthy non-string
`zone` finds nothing in the (string-keyed) action mapping, so validation
of the empty list rejects the action (in the source the same inputs also
hit the `AttributeError` of `zone_id.startswith`, which the method's
`except Exception` swallows); a truthy non-string `action` is never equal
to any member of the string list `valid_actions`, so it is rejected. -/
def processLlmResponse (cfg : JerkinsConfig) (states : List EntityState)
    (resp : JVal) : Option (String × String × JVal) :=
  if !pyTruthy resp || !resp.isObj then none
  else if !optTruthy (getField resp ("zone")) || !optTruthy (getField resp ("action")) then
    none
  else
    match getField resp ("zone"), getField resp ("action") with
    | some (JVal.jstr z), some (JVal.jstr a) =>
      if a ∈ validateZoneActions states z ((lookupKV cfg.action_mappings z).getD []) then
        some (z, a, (getField resp ("parameters")).getD (JVal.jobj []))
      else none
    | _, _ => none

/-- A dispatched platform service call: `hass.services.async_call(domain,
service, service_data=..., target=...)`. -/
structure ServiceCall where
  domain : String
  service : String
  service_data : List (String × JVal)
  target : List (String × JVal)
deriving Repr

/-- JerkinsAI._execute_action for a decision whose parameter bag parsed as
an object: a dotted action is split into domain and service; the service
data is the copy `{**parameters}` taken before the source pops
`entity_id` from `parameters`, so it still holds every original key; the
target is the popped `entity_id` when present, else the zone's entities of
the action's domain when any exist, else empty.  A dot-less custom action
only logs and dispatches nothing (`none`). -/
def executeAction (states : List EntityState) (zone action : String)
    (parameters : List (String × JVal)) : Option ServiceCall :=
  if strHasChar action '.' then
    some { domain := domainOf action
           service := afterFirstDot action
           service_data := parameters
           target :=
             match lookupKV parameters ("entity_id") with
             | some v => [(("entity_id" : String), v)]
             | none =>
               if (getEntitiesForZone states zone).isEmpty then []
               else if ((getEntitiesForZone states zone).filter
                   (fun e => strStartsWith e (domainOf action ++ "."))).isEmpty then []
               else [(("entity_id" : String),
                 JVal.jarr (((getEntitiesForZone states zone).filter
                   (fun e => strStartsWith e (domainOf action ++ "."))).map JVal.jstr))] }
  else none

/-- Observable effects of one call of JerkinsAI.async_update. -/
structure CycleTrace where
  snapshot : List SensorInfo
  llmContacted : Bool
  llmResponse : Option JVal
  execInvoked : Option (String × String × JVal)
deriving Repr

/-- JerkinsAI.async_update: collect the snapshot; when it is empty, log
and return before any request is built; otherwise ask the endpoint (a
request goes out only when a URL is configured) and, when a response
arrives, process it. -/
def asyncUpdate (cfg : JerkinsConfig) (states : List EntityState)
    (outcome : LlmOutcome) : CycleTrace :=
  if (collectSensorData cfg states).isEmpty then
    { snapshot := collectSensorData cfg states
      llmContacted := false
      llmResponse := none
      execInvoked := none }
  else
    match communicateWithLlm cfg outcome with
    | none =>
      { snapshot := collectSensorData cfg states
        llmContacted := cfg.llm_url.isSome
        llmResponse := none
        execInvoked := none }
    | some r =>
      { snapshot := collectSensorData cfg states
        llmContacted := cfg.llm_url.isSome
        llmResponse := some r
        execInvoked := processLlmResponse cfg states r }

/-- In-memory and persisted configuration of one orchestrator instance
(the `self.*` mappings and `self.entry.data`). -/
structure InstanceState where
  config : JerkinsConfig
  persisted : JerkinsConfig
deriving Repr

/-- JerkinsAI.async_update_zone_mapping: reject (returning False, touching
nothing) when the sensor is not configured; otherwise set the sensor's
zone and persist the whole configuration record with the new mapping. -/
def updateZoneMapping (st : InstanceState) (sensor_id zone_id : String) :
    InstanceState × Bool :=
  if sensor_id ∈ st.config.sensors then
    ({ config :=
         { st.config with zone_mappings := setKV st.config.zone_mappings sensor_id zone_id }
       persisted :=
         { st.persisted with zone_mappings := setKV st.config.zone_mappings sensor_id zone_id } },
     true)
  else (st, false)

/-- JerkinsAI.async_update_action_mapping: set the zone's action list and
persist the whole configuration record with the new mapping.  The
operation references no sensors, so there is nothing to validate and it
always succeeds. -/
def updateActionMapping (st : InstanceState) (zone_id : String)
    (actions : List String) : InstanceState × Bool :=
  ({ config :=
       { st.config with action_mappings := setKV st.config.action_mappings zone_id actions }
     persisted :=
       { st.persisted with action_mappings := setKV st.config.action_mappings zone_id actions } },
   true)

/-- Number of update cycles of one instance currently in flight. -/
structure LoopState where
  inFlight : Nat
deriving Repr, DecidableEq

/-- Events of one orchestrator instance: a trigger of async_update (a
timer tick from `async_track_time_interval` or the `force_update`
service) and the completion of a running cycle. -/
inductive LoopEvent where
  | trigger : LoopEvent
  | cycleDone : LoopEvent
deriving Repr, DecidableEq

/-- Cycle bookkeeping of the JerkinsAI class: `async_update` begins its
body unconditionally — the class keeps no lock, flag or queue, and neither
`async_setup` nor the service handlers check for an in-flight cycle — so
every trigger immediately starts one more cycle, and a completion
retires one. -/
def loopStep : LoopState → LoopEvent → LoopState
  | s, LoopEvent.trigger => { inFlight := s.inFlight + 1 }
  | s, LoopEvent.cycleDone => { inFlight := s.inFlight - 1 }

/-- Run a sequence of events (triggers may arrive at any point of a cycle:
`async_update` suspends at its awaits, in particular during the endpoint
request). -/
def loopRun (s : LoopState) : List LoopEvent → LoopState
  | [] => s
  | e :: es => loopRun (loopStep s e) es

/-- Example configuration used by the concrete witnesses: one configured
binary sensor mapped to zone kitchen, which permits light.turn_on. -/
def cfgEx : JerkinsConfig :=
  { llm_url := some ("http://llm.local/api")
    sensors := ["binary_sensor.front_door"]
    zone_mappings := [(("binary_sensor.front_door" : String), ("kitchen" : String))]
    action_mappings := [(("kitchen" : String), (["light.turn_on"] : List String))]
    polling_interval := DEFAULT_POLLING_INTERVAL }

/-- Example platform state: the configured sensor is on and a light
entity lives in the kitchen. -/
def statesEx : List EntityState :=
  [ { entity_id := "binary_sensor.front_door"
      name := "Front Door"
      state := "on"
      attributes := [] },
    { entity_id := "light.kitchen_lamp"
      name := "Kitchen Lamp"
      state := "off"
      attributes := [] } ]

/-- The observation `collectSensorData` emits for `cfgEx` and `statesEx`. -/
def sensorInfoEx : SensorInfo :=
  { entity_id := "binary_sensor.front_door"
    name := "Front Door"
    state := SVal.str ("on")
    attributes := []
    zone := "kitchen"
    available_actions := ["light.turn_on"] }

/-- A direct-dialect decision response accepted under `cfgEx`. -/
def respEx : JVal :=
  JVal.jobj [(("zone" : String), JVal.jstr ("kitchen")),
             (("action" : String), JVal.jstr ("light.turn_on"))]

/-- A wrapped-text-dialect response: an envelope whose only field is a
`response` string that itself is the JSON text of the decision of
`respEx`. -/
def wrappedRespEx : JVal :=
  JVal.jobj [(("response" : String),
    JVal.jstr ("\x7b\"zone\": \"kitchen\", \"action\": \"light.turn_on\"\x7d"))]

/-- Decision parameters carrying an explicit entity_id target. -/
def paramsEx : List (String × JVal) :=
  [(("entity_id" : String), JVal.jstr ("light.kitchen_lamp")),
   (("brightness" : String), JVal.jnum 255)]

/-- Instance state whose in-memory and persisted configuration both equal
`cfgEx`. -/
def instEx : InstanceState := { config := cfgEx, persisted := cfgEx }

/-- Configuration with no sensors, so its snapshot is always empty. -/
def cfgEmpty : JerkinsConfig :=
  { llm_url := some ("http://llm.local/api")
    sensors := []
    zone_mappings := []
    action_mappings := []
    polling_interval := DEFAULT_POLLING_INTERVAL }

theorem lookupKV_setKV_self {α : Type} (m : List (String × α)) (k : String) (v : α) :
    lookupKV (setKV m k v) k = some v := by
  induction m with
  | nil => simp [setKV, lookupKV, List.find?_cons, beq_iff_eq]
  | cons p ps ih =>
    by_cases h : p.1 = k
    · simp [setKV, lookupKV, List.find?_cons, beq_iff_eq, h]
    · simp only [setKV, lookupKV, List.find?_cons, beq_iff_eq, h] at ih ⊢
      simpa [h] using ih

theorem lookupKV_setKV_other {α : Type} (m : List (String × α)) (k k' : String) (v : α)
    (h : k' ≠ k) : lookupKV (setKV m k v) k' = lookupKV m k' := by
  induction m with
  | nil => simp [setKV, lookupKV, List.find?_cons, beq_iff_eq, Ne.symm h]
  | cons p ps ih =>
    by_cases hp : p.1 = k
    · simp [setKV, lookupKV, List.find?_cons, beq_iff_eq, hp, Ne.symm h]
    · have hs : setKV (p :: ps) k v = p :: setKV ps k v := by
        simp [setKV, hp]
      rw [hs]
      by_cases hp' : p.1 = k'
      · unfold lookupKV
        rw [List.find?_cons_of_pos _ (by simpa using hp'),
            List.find?_cons_of_pos _ (by simpa using hp')]
      · unfold lookupKV at ih ⊢
        rw [List.find?_cons_of_neg _ (by simpa using hp'),
            List.find?_cons_of_neg _ (by simpa using hp')]
        exact ih

/-- C1: whenever `_process_llm_response` invokes the executor (model:
`processLlmResponse` returns `some`), the decision's zone and action
fields are strings, both are non-empty, and the action is a member of the
capability set recomputed at decision time by `validateZoneActions` from
the current action mapping and current platform state; contrapositively, a
decision whose action is not in that freshly resolved set never reaches
execution. -/
theorem c1_execute_only_freshly_validated
    (cfg : JerkinsConfig) (states : List EntityState) (resp : JVal)
    (z a : String) (p : JVal)
    (h : processLlmResponse cfg states resp = some (z, a, p)) :
    getField resp ("zone") = some (JVal.jstr z) ∧
    getField resp ("action") = some (JVal.jstr a) ∧
    z ≠ "" ∧ a ≠ "" ∧
    a ∈ validateZoneActions states z ((lookupKV cfg.action_mappings z).getD []) := by
  unfold processLlmResponse at h
  split at h
  · exact Option.noConfusion h
  · split at h
    · exact Option.noConfusion h
    · rename_i hguard
      split at h
      · rename_i z' a' hz ha
        split at h
        · rename_i hmem
          injection h with h'
          simp only [Prod.mk.injEq] at h'
          obtain ⟨hz1, ha1, hp1⟩ := h'
          subst hz1
          subst ha1
          rw [hz, ha] at hguard
          simp [optTruthy, pyTruthy] at hguard
          exact ⟨hz, ha, hguard.1, hguard.2, hmem⟩
        · exact Option.noConfusion h
      · exact Option.noConfusion h

/-- C1 witness: under `cfgEx` and `statesEx` the decision `respEx` is
executed, and the theorem's conclusions evaluate at it. -/
theorem c1_execute_only_freshly_validated_witness :
    getField respEx ("zone") = some (JVal.jstr ("kitchen")) ∧
    getField respEx ("action") = some (JVal.jstr ("light.turn_on")) ∧
    ("kitchen" : String) ≠ "" ∧ ("light.turn_on" : String) ≠ "" ∧
    ("light.turn_on" : String) ∈ validateZoneActions statesEx ("kitchen")
      ((lookupKV cfgEx.action_mappings ("kitchen")).getD []) :=
  c1_execute_only_freshly_validated cfgEx statesEx respEx ("kitchen")
    ("light.turn_on") (JVal.jobj []) rfl

/-- C2 counterexample: the claim says a boolean-class sensor with raw
state "on" yields the boolean true as the observation's state value.  On
the source, `_collect_sensor_data` emits the raw string unchanged: for the
configured binary sensor with raw state "on" the emitted state value is
the string "on", while the spec-modelled normalization demands the
boolean true, and the two differ. -/
theorem c2_counterexample :
    (collectSensorData cfgEx statesEx).map (fun i => i.state) = [SVal.str ("on")] ∧
    specNormalizeState ("binary_sensor.front_door") ("on") = SVal.bool true ∧
    SVal.str ("on") ≠ SVal.bool true :=
  ⟨rfl, rfl, by decide⟩

/-- C2 amended: no normalization is performed anywhere; for every
configured sensor — boolean-class or not — the emitted observation's
state value is the sensor's raw state string passed through unchanged. -/
theorem c2_raw_state_passthrough
    (cfg : JerkinsConfig) (states : List EntityState) (info : SensorInfo)
    (h : info ∈ collectSensorData cfg states) :
    ∃ st, findState states info.entity_id = some st ∧ info.state = SVal.str st.state := by
  unfold collectSensorData at h
  obtain ⟨sid, hmem, hf⟩ := List.mem_filterMap.mp h
  split at hf
  · exact Option.noConfusion hf
  · rename_i st hst
    split at hf
    · exact Option.noConfusion hf
    · rename_i zid hz
      split at hf
      · exact Option.noConfusion hf
      · injection hf with hf'
        subst hf'
        exact ⟨st, hst, rfl⟩

/-- C2 amended witness: the observation collected for the binary sensor
of `cfgEx` carries its raw state string. -/
theorem c2_raw_state_passthrough_witness :
    ∃ st, findState statesEx sensorInfoEx.entity_id = some st ∧
      sensorInfoEx.state = SVal.str st.state :=
  c2_raw_state_passthrough cfgEx statesEx sensorInfoEx (by
    have h : collectSensorData cfgEx statesEx = [sensorInfoEx] := rfl
    rw [h]
    exact List.mem_singleton.mpr rfl)

/-- C3 counterexample: a wrapped-text response whose `response` field
holds the JSON text of exactly the decision of `respEx` is NOT processed
like that direct decision: the direct decision is executed, the wrapped
envelope is dropped (its `zone`/`action` fields are missing), and the
nested string is never parsed. -/
theorem c3_counterexample :
    processLlmResponse cfgEx statesEx wrappedRespEx = none ∧
    processLlmResponse cfgEx statesEx respEx =
      some (("kitchen" : String), ("light.turn_on" : String), JVal.jobj []) :=
  ⟨rfl, rfl⟩

/-- C3 amended: the wrapped-text dialect is not supported.  A response
envelope whose only field is a `response` string — whatever that string
holds — is treated as a decision with missing zone and action: the nested
string is never parsed as JSON, no action is processed or executed, and
no exception is raised (the function is total and returns `none`). -/
theorem c3_wrapped_dialect_rejected
    (cfg : JerkinsConfig) (states : List EntityState) (s : String) :
    processLlmResponse cfg states
      (JVal.jobj [(("response" : String), JVal.jstr s)]) = none := rfl

/-- C4 counterexample: a trigger arriving while one cycle is outstanding
immediately yields two concurrently in-flight cycles — `async_update` has
no lock, flag or queue, so the second trigger is neither coalesced nor
deferred. -/
theorem c4_counterexample :
    1 < (loopRun { inFlight := 0 } [LoopEvent.trigger, LoopEvent.trigger]).inFlight := by
  decide

/-- C4 amended: the orchestrator provides no single-flight protection of
its own: every trigger of `async_update` unconditionally starts one more
cycle, whatever the number already in flight; preventing overlap is left
entirely to the hosting platform's scheduling. -/
theorem c4_trigger_always_starts_cycle (s : LoopState) :
    (loopStep s LoopEvent.trigger).inFlight = s.inFlight + 1 := rfl

/-- C5: the decision request folds every failure mode — missing endpoint
URL, expiry of the 30-unit timeout, non-200 status, transport error,
other error, body-parse failure — into `none`, and sends at most one
request per cycle (no retry).  That no exception escapes is the totality
of `communicateWithLlm`: every branch of the source returns after
catching, and every branch of the model yields a value. -/
theorem c5_failures_fold_to_none (cfg : JerkinsConfig) (outcome : LlmOutcome)
    (h : cfg.llm_url = none ∨ llmFailure outcome = true) :
    communicateWithLlm cfg outcome = none ∧ llmRequestsSent cfg ≤ 1 := by
  constructor
  · rcases h with h | h
    · unfold communicateWithLlm
      rw [h]
    · unfold communicateWithLlm
      cases hc : cfg.llm_url with
      | none => rfl
      | some u =>
        cases outcome with
        | clientError m => rfl
        | otherError m => rfl
        | response e s b =>
          unfold llmFailure at h
          by_cases h1 : LLM_TIMEOUT < e
          · simp [h1]
          · by_cases h2 : s = 200
            · have hb : b = none := by
                simp [h1, h2] at h
                exact h
              simp [h1, h2, hb]
            · simp [h1, h2]
  · unfold llmRequestsSent
    cases cfg.llm_url <;> simp

/-- C5 witness: a response that arrives after 31 > 30 time units is
folded to no decision. -/
theorem c5_failures_fold_to_none_witness :
    communicateWithLlm cfgEx (LlmOutcome.response 31 200 (some respEx)) = none ∧
    llmRequestsSent cfgEx ≤ 1 :=
  c5_failures_fold_to_none cfgEx (LlmOutcome.response 31 200 (some respEx)) (Or.inr rfl)

/-- C6: the zone-mapping update validates its referenced sensor against
the configured sensor list — on failure it returns false and leaves the
in-memory and persisted configuration untouched; on success it replaces
exactly the one entry and persists the whole configuration record.  The
action-mapping update references no sensors (its validation is vacuous),
always succeeds, replaces exactly the one entry and persists the whole
configuration record. -/
theorem c6_mutation_operations (st : InstanceState) (sensor zone zid : String)
    (acts : List String) :
    (sensor ∉ st.config.sensors → updateZoneMapping st sensor zone = (st, false)) ∧
    (sensor ∈ st.config.sensors →
      updateZoneMapping st sensor zone =
        ({ config :=
             { st.config with zone_mappings := setKV st.config.zone_mappings sensor zone }
           persisted :=
             { st.persisted with zone_mappings := setKV st.config.zone_mappings sensor zone } },
         true) ∧
      lookupKV (setKV st.config.zone_mappings sensor zone) sensor = some zone ∧
      ∀ k, k ≠ sensor →
        lookupKV (setKV st.config.zone_mappings sensor zone) k =
          lookupKV st.config.zone_mappings k) ∧
    (updateActionMapping st zid acts =
        ({ config :=
             { st.config with action_mappings := setKV st.config.action_mappings zid acts }
           persisted :=
             { st.persisted with action_mappings := setKV st.config.action_mappings zid acts } },
         true) ∧
      lookupKV (setKV st.config.action_mappings zid acts) zid = some acts ∧
      ∀ k, k ≠ zid →
        lookupKV (setKV st.config.action_mappings zid acts) k =
          lookupKV st.config.action_mappings k) := by
  refine ⟨fun hn => ?_,
          fun hy => ⟨?_, lookupKV_setKV_self st.config.zone_mappings sensor zone,
            fun k hk => lookupKV_setKV_other st.config.zone_mappings sensor k zone hk⟩,
          rfl, lookupKV_setKV_self st.config.action_mappings zid acts,
          fun k hk => lookupKV_setKV_other st.config.action_mappings zid k acts hk⟩
  · unfold updateZoneMapping
    rw [if_neg hn]
  · unfold updateZoneMapping
    rw [if_pos hy]

/-- C6 witness: an unconfigured sensor is rejected without mutation; a
configured sensor and an action-mapping update both succeed. -/
theorem c6_mutation_operations_witness :
    updateZoneMapping instEx ("sensor.unknown") ("kitchen") = (instEx, false) ∧
    (updateZoneMapping instEx ("binary_sensor.front_door") ("living")).2 = true ∧
    (updateActionMapping instEx ("kitchen") ["light.turn_off"]).2 = true := by
  refine ⟨(c6_mutation_operations instEx ("sensor.unknown") ("kitchen") ("z") []).1
            (by decide), ?_, ?_⟩
  · exact congrArg Prod.snd
      (((c6_mutation_operations instEx ("binary_sensor.front_door") ("living") ("z") []).2.1
        (by decide)).1)
  · exact congrArg Prod.snd
      ((c6_mutation_operations instEx ("s") ("x") ("kitchen") ["light.turn_off"]).2.2.1)

/-- C7: a dotted action is retained by validation exactly when it was
configured, its domain is in the supported-domain allow-list, and either
some entity of the zone starts with the domain prefix or the domain is
script or automation; everything else is dropped, and the function is
total (nothing is thrown). -/
theorem c7_dotted_action_validation
    (states : List EntityState) (zone a : String) (configured : List String)
    (hdot : strHasChar a '.' = true) :
    a ∈ validateZoneActions states zone configured ↔
      a ∈ configured ∧
      domainOf a ∈ SUPPORTED_DOMAINS ∧
      ((getEntitiesForZone states zone).any
          (fun e => strStartsWith e (domainOf a ++ ".")) = true ∨
        domainOf a ∈ ["script", "automation"]) := by
  unfold validateZoneActions
  rw [List.mem_filter]
  simp [hdot, and_assoc]

/-- C7 witness: light.turn_on is retained for the kitchen zone of
`statesEx` because a light entity lives there. -/
theorem c7_dotted_action_validation_witness :
    ("light.turn_on" : String) ∈ validateZoneActions statesEx ("kitchen") ["light.turn_on"] :=
  (c7_dotted_action_validation statesEx ("kitchen") ("light.turn_on") ["light.turn_on"]
    (by decide)).mpr ⟨by decide, by decide, Or.inl (by decide)⟩

/-- C8: a configured action identifier without a domain separator is
always retained by validation, whatever the platform state holds. -/
theorem c8_custom_action_passthrough
    (states : List EntityState) (zone a : String) (configured : List String)
    (hmem : a ∈ configured) (hnodot : strHasChar a '.' = false) :
    a ∈ validateZoneActions states zone configured := by
  unfold validateZoneActions
  rw [List.mem_filter]
  exact ⟨hmem, by simp [hnodot]⟩

/-- C8 witness: the dot-less custom action party_mode is retained even
though no entity backs it. -/
theorem c8_custom_action_passthrough_witness :
    ("party_mode" : String) ∈ validateZoneActions statesEx ("kitchen") ["party_mode"] :=
  c8_custom_action_passthrough statesEx ("kitchen") ("party_mode") ["party_mode"]
    (by decide) (by decide)

/-- C9: a cycle whose collected snapshot is empty terminates early: no
request is built or sent to the reasoning endpoint and no decision
processing or execution occurs. -/
theorem c9_empty_snapshot_skips_llm
    (cfg : JerkinsConfig) (states : List EntityState) (outcome : LlmOutcome)
    (h : collectSensorData cfg states = []) :
    asyncUpdate cfg states outcome =
      { snapshot := [], llmContacted := false, llmResponse := none, execInvoked := none } := by
  unfold asyncUpdate
  rw [h]
  rfl

/-- C9 witness: with no configured sensors the snapshot is empty and the
cycle is a no-op even though the endpoint would answer. -/
theorem c9_empty_snapshot_skips_llm_witness :
    asyncUpdate cfgEmpty statesEx (LlmOutcome.response 1 200 (some respEx)) =
      { snapshot := [], llmContacted := false, llmResponse := none, execInvoked := none } :=
  c9_empty_snapshot_skips_llm cfgEmpty statesEx (LlmOutcome.response 1 200 (some respEx)) rfl

/-- C10: executing a dotted action whose parameter bag contains
entity_id dispatches a service call that carries that entity_id both as
its target and still inside its service data, because the service-data
bag is the copy taken before entity_id is popped from the original
parameters dict. -/
theorem c10_entity_id_in_data_and_target
    (states : List EntityState) (zone a : String) (params : List (String × JVal)) (v : JVal)
    (hdot : strHasChar a '.' = true) (hp : lookupKV params ("entity_id") = some v) :
    (executeAction states zone a params).isSome = true ∧
    Option.map (fun c => lookupKV c.service_data ("entity_id"))
      (executeAction states zone a params) = some (some v) ∧
    Option.map (fun c => c.target) (executeAction states zone a params) =
      some [(("entity_id" : String), v)] := by
  simp [executeAction, hdot, hp]

/-- C10 witness: a light.turn_on decision with an explicit entity_id
parameter is dispatched with the entity id in both places. -/
theorem c10_entity_id_in_data_and_target_witness :
    (executeAction statesEx ("kitchen") ("light.turn_on") paramsEx).isSome = true ∧
    Option.map (fun c => lookupKV c.service_data ("entity_id"))
      (executeAction statesEx ("kitchen") ("light.turn_on") paramsEx) =
      some (some (JVal.jstr ("light.kitchen_lamp"))) ∧
    Option.map (fun c => c.target)
      (executeAction statesEx ("kitchen") ("light.turn_on") paramsEx) =
      some [(("entity_id" : String), JVal.jstr ("light.kitchen_lamp"))] :=
  c10_entity_id_in_data_and_target statesEx ("kitchen") ("light.turn_on") paramsEx
    (JVal.jstr ("light.kitchen_lamp")) (by decide) rfl
